import Mathlib

/-! UTS-IAE-AZKA: API gateway and task service

A shallow embedding of

* `src/api-gateway/server.js`: the key slot `PUBLIC_KEY`, the `verifyToken`
  middleware, the two proxies and the route definitions;
* `src/services/graphql-api/server.js`: the in-memory task store, the three
  mutations and the two filtered subscriptions over the `PubSub` bus.

The libraries the source calls are not part of the repository:

* `jsonwebtoken`: the call `jwt.verify` is a parameter of the model;
* `express`: a mount path of `app.use` matches a request path that starts
  with it, letter case ignored, and goes on with nothing or with a slash; the
  layers of the stack run in registration order;
* `cors` and `express-rate-limit`, mounted before every route: `cors` ends
  every `OPTIONS` request with 204, the limiter answers 429 once a client has
  used up its 100 requests of the window;
* `http-proxy-middleware`: the outgoing request starts from a copy of
  `req.headers`, with `host` set to the host of the target (`changeOrigin`),
  and `onProxyReq` runs on it before it is sent; with `ws: true` the proxy
  listens to the upgrade event of the server and sends handshakes on to its
  target without Express;
* Node refuses to send a header value with a character outside tab,
  `0x20`-`0x7e` and `0x80`-`0xff`;
* `axios`: `response.data` is the body as a string, or the value parsed from
  it when the body is JSON text (`null` for the body `null`);
* `graphql-subscriptions`: `pubsub.publish` hands the payload to every open
  iterator of the trigger, and `withFilter` passes on the payloads for which
  the filter function written in the source returns true.
-/

set_option autoImplicit false

namespace Gateway

/-! ## Headers -/

/-- Request headers, a JS object keyed by the lower-cased header name. -/
abbrev Headers := List (String × String)

/-- Property read `headers[k]`; `none` stands for `undefined`. -/
def getHeader (h : Headers) (k : String) : Option String :=
  match h with
  | [] => none
  | (k', v) :: rest => if k' = k then some v else getHeader rest k

/-- Property write `headers[k] = v` (also `proxyReq.setHeader(k, v)`): the
old binding of `k`, if any, is replaced. -/
def setHeader (h : Headers) (k v : String) : Headers :=
  (k, v) :: h.filter (fun p => p.1 ≠ k)

/-- Claims of a verified token, `user` in the source. The tokens signed by
the user service carry `sub`, `name` and `email` as strings. -/
structure Claims where
  sub : String
  name : String
  email : String
deriving DecidableEq, Repr

/-- A request as it arrives from a client. `path` is the path name of the
request URL. -/
structure Incoming where
  method : String
  path : String
  headers : Headers
deriving DecidableEq, Repr

/-- The part of an Express request object `req` the gateway reads and writes;
`user` is the property `req.user`. -/
structure Request where
  method : String
  path : String
  headers : Headers
  user : Option Claims
deriving DecidableEq, Repr

/-- The request object Express builds for an arriving request: `req.user`
is undefined. -/
def Incoming.toRequest (inc : Incoming) : Request :=
  ⟨inc.method, inc.path, inc.headers, none⟩

/-! ## verifyToken -/

/-- The library call `jwt.verify(token, key, { algorithms })`: either an error
message or the decoded payload. -/
abbrev JwtVerify := String → String → List String → Except String Claims

/-- JS `s.split(sep)` for a one-character separator, on character lists. -/
def splitChars (sep : Char) : List Char → List (List Char)
  | [] => [[]]
  | c :: cs =>
    if c = sep then [] :: splitChars sep cs
    else
      match splitChars sep cs with
      | [] => [[c]]
      | w :: ws => (c :: w) :: ws

/-- JS `s.split(' ')`. -/
def splitSpace (s : String) : List String :=
  (splitChars ' ' s.toList).map String.mk

/-- The expression `authHeader && authHeader.split(' ')[1]`: `undefined`
when the header is undefined, the empty string when the header is the empty
string (it is falsy, so `&&` yields it), else the second piece of the split
(`undefined` when there is none). -/
def extractToken (authHeader : Option String) : Option String :=
  match authHeader with
  | none => none
  | some a => if a = "" then some "" else (splitSpace a)[1]?

/-- What a middleware did with the response: it answered, or it called
`next()`. -/
inductive Action where
  | respond (status : Nat) (error : String)
  | next
deriving DecidableEq, Repr

/-- A middleware run: the request as the middleware left it, and what it
did. -/
structure Step where
  req : Request
  action : Action
deriving DecidableEq, Repr

/-- The middleware `verifyToken(req, res, next)`. -/
def verifyToken (jwtVerify : JwtVerify) (PUBLIC_KEY : Option String)
    (req : Request) : Step :=
  match PUBLIC_KEY with
  | none =>
    ⟨req, .respond 503 "Service unavailable. Public key not yet fetched."⟩
  | some key =>
    if key = "" then
      ⟨req, .respond 503 "Service unavailable. Public key not yet fetched."⟩
    else
      match extractToken (getHeader req.headers "authorization") with
      | none => ⟨req, .respond 401 "Unauthorized: No token provided"⟩
      | some token =>
        match jwtVerify token key ["RS256"] with
        | .error _ =>
          ⟨req, .respond 403 "Forbidden: Invalid or expired token"⟩
        | .ok user =>
          ⟨{ req with
              headers :=
                setHeader
                  (setHeader (setHeader req.headers "x-user-id" user.sub)
                    "x-user-name" user.name)
                  "x-user-email" user.email
              user := some user },
            .next⟩

/-! ## Proxies and routes -/

/-- The two upstream targets. -/
inductive Upstream where
  | USER_SERVICE
  | TASK_SERVICE
deriving DecidableEq, Repr

/-- The request a proxy sends upstream. -/
structure ProxyReq where
  target : Upstream
  method : String
  path : String
  headers : Headers
deriving DecidableEq, Repr

/-- The `onProxyReq` hook shared by `restApiProxy` and `graphqlApiProxy`: the
outgoing request starts from the incoming headers, and the three identity
headers are set only when `req.user` is there. -/
def onProxyReq (req : Request) : Headers :=
  match req.user with
  | none => req.headers
  | some user =>
    setHeader
      (setHeader (setHeader req.headers "x-user-id" user.sub)
        "x-user-name" user.name)
      "x-user-email" user.email

/-- What the gateway does with a request. -/
inductive Result where
  | answered (status : Nat) (body : String)
  | forwarded (out : ProxyReq)
deriving DecidableEq, Repr

/-- The test Node puts a header value to before it sends it: the tab and the
characters `0x20` to `0x7e` and `0x80` to `0xff` pass, every other character
makes it throw. -/
def validHeaderValue (v : String) : Bool :=
  v.toList.all fun c =>
    c = '\t' || (0x20 ≤ c.toNat && c.toNat ≤ 0x7e) || (0x80 ≤ c.toNat && c.toNat ≤ 0xff)

/-- A proxy created by `createProxyMiddleware` with the given target and
`changeOrigin: true`; `host` is the host of the target URL. The outgoing
request starts from the headers of `req` with `host` rewritten, and
`onProxyReq` runs on it. When Node refuses one of the header values nothing is
sent and Express answers 500. -/
def proxy (host : String) (target : Upstream) (req : Request) : Result :=
  let headers := onProxyReq { req with headers := setHeader req.headers "host" host }
  if headers.all (fun p => validHeaderValue p.2) then
    .forwarded ⟨target, req.method, req.path, headers⟩
  else .answered 500 "Internal Server Error"

/-- One `app.use(mount, ...handlers)` line of the route definitions. -/
structure RouteRule where
  mount : String
  requiresAuth : Bool
  target : Upstream
deriving DecidableEq, Repr

/-- The route definitions, in registration order. -/
def routes : List RouteRule :=
  [ ⟨"/api/users/register", false, .USER_SERVICE⟩,
    ⟨"/api/users/login", false, .USER_SERVICE⟩,
    ⟨"/api/users/auth/public-key", false, .USER_SERVICE⟩,
    ⟨"/api/users/me", true, .USER_SERVICE⟩,
    ⟨"/graphql", true, .TASK_SERVICE⟩ ]

/-- What is left of a path once a (lower-case) mount path has been read off
its front, letter case ignored; `none` when the path does not start so. -/
def stripMount : List Char → List Char → Option (List Char)
  | [], p => some p
  | _ :: _, [] => none
  | c :: m, d :: p => if c = d.toLower then stripMount m p else none

/-- Express matching of a mount path of `app.use`: the regular expression
`^mount\/?(?=\/|$)` without case sensitivity, so the path starts with the
mount path and goes on with nothing or with a slash. -/
def mountMatches (mount path : String) : Bool :=
  match stripMount mount.toList path.toList with
  | none => false
  | some [] => true
  | some (c :: _) => c = '/'

/-- The first registered rule whose mount path matches: Express runs the
stack in order, and neither proxy calls `next()`. -/
def route (path : String) : Option RouteRule :=
  routes.find? (fun r => mountMatches r.mount path)

/-- The route `app.get('/health', ...)`: Express answers `GET` and `HEAD` on
the exact path, an optional final slash allowed, without case sensitivity. -/
def isHealth (inc : Incoming) : Bool :=
  (inc.method = "GET" || inc.method = "HEAD") &&
    (stripMount "/health".toList inc.path.toList = some [] ||
      stripMount "/health".toList inc.path.toList = some ['/'])

/-- The route layers of the gateway, for a request the global middleware has
passed on: the health route, then the route definitions; a request no layer
takes gets the 404 of Express. On a rule with `requiresAuth` the proxy runs
only if `verifyToken` called `next()`. `hostOf` gives the host of
`USER_SERVICE_URL` and of `TASK_SERVICE_URL`. -/
def routeLayers (hostOf : Upstream → String) (jwtVerify : JwtVerify)
    (PUBLIC_KEY : Option String) (inc : Incoming) : Result :=
  if isHealth inc then .answered 200 "healthy"
  else
    match route inc.path with
    | none => .answered 404 "Not Found"
    | some r =>
      if r.requiresAuth then
        match verifyToken jwtVerify PUBLIC_KEY inc.toRequest with
        | ⟨_, .respond status error⟩ => .answered status error
        | ⟨req, .next⟩ => proxy (hostOf r.target) r.target req
      else proxy (hostOf r.target) r.target inc.toRequest

/-- What reaches the HTTP server of the gateway: an ordinary request, or the
handshake of a protocol upgrade (the WebSocket of the subscriptions). -/
inductive Arrival where
  | request (inc : Incoming)
  | upgrade (inc : Incoming)
deriving DecidableEq, Repr

/-- The gateway as a whole. An ordinary request runs through the global
middleware first: `cors` answers every `OPTIONS` request itself with 204, and
the rate limiter answers 429 when `limited`, that is when the client has used
up its 100 requests of the window; then come the route layers. A handshake
does not run through Express: once `graphqlApiProxy` (`ws: true`) listens to
the upgrade event of the server (`listening`), the handshake is sent to the
task service on whatever path it came, with `host` rewritten and nothing
else done to it; before that, Node treats it as an ordinary request. -/
def gateway (hostOf : Upstream → String) (jwtVerify : JwtVerify)
    (PUBLIC_KEY : Option String) (limited listening : Bool) : Arrival → Result
  | .request inc =>
    if inc.method = "OPTIONS" then .answered 204 ""
    else if limited then .answered 429 "Too many requests, please try again later."
    else routeLayers hostOf jwtVerify PUBLIC_KEY inc
  | .upgrade inc =>
    if listening then
      .forwarded
        ⟨.TASK_SERVICE, inc.method, inc.path,
          setHeader inc.headers "host" (hostOf .TASK_SERVICE)⟩
    else if inc.method = "OPTIONS" then .answered 204 ""
    else if limited then .answered 429 "Too many requests, please try again later."
    else routeLayers hostOf jwtVerify PUBLIC_KEY inc

/-- The hosts of the default target URLs, `http://localhost:3001` and
`http://localhost:4000`. -/
def defaultHost : Upstream → String
  | .USER_SERVICE => "localhost:3001"
  | .TASK_SERVICE => "localhost:4000"

/-- Longest-match precedence as the specification words it: among the rules
whose mount path matches, one with the longest mount path. -/
def longestMatch (path : String) : Option RouteRule :=
  (routes.filter (fun r => mountMatches r.mount path)).foldl
    (fun best r =>
      match best with
      | none => some r
      | some b => if b.mount.length < r.mount.length then some r else some b)
    none

/-- A stand-in for `jwt.verify` used in examples: it accepts the token `good`
under the key `KEY` when `RS256` is allowed, and rejects everything else. -/
def sampleVerify : JwtVerify := fun token key algorithms =>
  if token = "good" ∧ key = "KEY" ∧ "RS256" ∈ algorithms then
    .ok ⟨"42", "alice", "a@x.com"⟩
  else .error "invalid signature"

/-! ## Key bootstrap -/

/-- The state of the gateway process around the key: the slot `PUBLIC_KEY`,
the number of calls of `fetchPublicKey` waiting at `await axios.get(url)`, and
the delays, in milliseconds, of the pending `setTimeout(fetchPublicKey, ...)`
timers. -/
structure KeyStore where
  PUBLIC_KEY : Option String
  inFlight : Nat
  timers : List Nat
deriving DecidableEq, Repr

/-- The state at module load: `let PUBLIC_KEY = null`, nothing started. -/
def KeyStore.init : KeyStore :=
  ⟨none, 0, []⟩

/-- The function `fetchPublicKey` up to its `await`: the request is sent. -/
def fetchPublicKey (st : KeyStore) : KeyStore :=
  { st with inFlight := st.inFlight + 1 }

/-- The function `fetchPublicKey` after its `await`, in the `try` branch:
`PUBLIC_KEY = response.data`. The value `response.data` is what axios makes
of the body: the body itself as a string, or, the body being JSON text, the
parsed value; `none` stands for the `null` it makes of the body `null`.
The other parsed values (numbers, booleans, objects) are not in the type. -/
def fetchResolved (data : Option String) (st : KeyStore) : KeyStore :=
  { st with PUBLIC_KEY := data, inFlight := st.inFlight - 1 }

/-- The function `fetchPublicKey` after its `await`, in the `catch` branch:
`setTimeout(fetchPublicKey, 5000)`. -/
def fetchRejected (st : KeyStore) : KeyStore :=
  { st with inFlight := st.inFlight - 1, timers := st.timers ++ [5000] }

/-- The callback of `app.listen`: it calls `fetchPublicKey()`. -/
def listen (st : KeyStore) : KeyStore :=
  fetchPublicKey st

/-- What can happen to the running gateway: a response to a pending key
request, its failure with an error message, the oldest timer firing, a
request reaching `verifyToken`. -/
inductive Event where
  | resolved (data : Option String)
  | rejected (message : String)
  | timeout
  | request (req : Request)
deriving DecidableEq, Repr

/-- One event on the key state. An event that cannot happen in a state (a
response with no request pending, a timer firing with none set) leaves it as
it is; `verifyToken` only reads `PUBLIC_KEY`. -/
def step (st : KeyStore) : Event → KeyStore
  | .resolved data => if 0 < st.inFlight then fetchResolved data st else st
  | .rejected _ => if 0 < st.inFlight then fetchRejected st else st
  | .timeout =>
    match st.timers with
    | [] => st
    | _ :: rest => fetchPublicKey { st with timers := rest }
  | .request _ => st

/-- The key state after a run of events on the started gateway. -/
def run (events : List Event) : KeyStore :=
  events.foldl step (listen KeyStore.init)

/-- The events of `n` key requests failing one after the other: between two
failures the retry timer fires. -/
def failures (message : String) : Nat → List Event
  | 0 => []
  | 1 => [.rejected message]
  | n + 2 => .rejected message :: .timeout :: failures message (n + 1)

/-! ## Upstream failure -/

/-- The body of a response of the gateway: the JSON object `{ error }`, or
something else. -/
inductive Body where
  | json (error : String)
  | other (content : String)
deriving DecidableEq, Repr

/-- A response sent to the client. -/
structure Response where
  status : Nat
  body : Body
deriving DecidableEq, Repr

/-- How the upstream took a forwarded request: it answered, or the connection
failed with an error code. -/
inductive UpstreamOutcome where
  | responded (res : Response)
  | failed (code : String)
deriving DecidableEq, Repr

/-- The end of a proxied request. The response of the upstream is passed on.
On a failure, `graphqlApiProxy` runs its `onError` option,
`res.status(500).json(...)`; `restApiProxy` sets no `onError`, so the error
handler of the proxy library runs, a parameter here. -/
def proxyResponse (defaultErrorHandler : String → ProxyReq → Response)
    (out : ProxyReq) : UpstreamOutcome → Response
  | .responded res => res
  | .failed code =>
    match out.target with
    | .TASK_SERVICE => ⟨500, .json "GraphQL service unavailable"⟩
    | .USER_SERVICE => defaultErrorHandler code out

end Gateway

namespace TaskService

/-! ## Task store -/

/-- The enum `TaskStatus` of the schema. -/
inductive TaskStatus where
  | TODO
  | IN_PROGRESS
  | DONE
  | ARCHIVED
deriving DecidableEq, Repr

/-- The type `Task` of the schema; `assigneeId` may be `null`. -/
structure Task where
  id : String
  title : String
  description : String
  status : TaskStatus
  assigneeId : Option String
  teamId : String
  createdAt : String
deriving DecidableEq, Repr

/-! ## PubSub -/

/-- The trigger names used with `pubsub.publish` and `pubsub.asyncIterator`. -/
inductive Trigger where
  | TASK_ADDED
  | TASK_UPDATED
deriving DecidableEq, Repr

/-- The published payloads: `{ taskAdded: task }` and `{ taskUpdated: task }`. -/
inductive Payload where
  | taskAdded (task : Task)
  | taskUpdated (task : Task)
deriving DecidableEq, Repr

/-- The two fields of the type `Subscription`. -/
inductive Field where
  | taskUpdated
  | taskAdded
deriving DecidableEq, Repr

/-- The trigger a subscription field iterates over. -/
def Field.trigger : Field → Trigger
  | .taskUpdated => .TASK_UPDATED
  | .taskAdded => .TASK_ADDED

/-- An open subscription: its field, its variable `teamId`, and the tasks
sent to its client so far, oldest first. -/
structure Subscription where
  field : Field
  teamId : String
  received : List Task
deriving DecidableEq, Repr

/-- The filter functions given to `withFilter`: the task under the key named
after the field is compared on `teamId` with the variable; it is returned
with the verdict, being the value the client is sent. A payload without that
key passes no filter. -/
def filterFn (field : Field) (payload : Payload) (teamId : String) :
    Option Task :=
  match field, payload with
  | .taskUpdated, .taskUpdated task =>
    if task.teamId = teamId then some task else none
  | .taskAdded, .taskAdded task =>
    if task.teamId = teamId then some task else none
  | _, _ => none

/-- What the filtered iterator of a subscription yields for a published
event: `pubsub.asyncIterator([trigger])` passes on the events of its trigger
only, and `withFilter` keeps those its filter function accepts. -/
def Subscription.sees (s : Subscription) (trigger : Trigger) (payload : Payload) :
    Option Task :=
  if s.field.trigger = trigger then filterFn s.field payload s.teamId else none

/-- One open subscription at a publish call: what its iterator yields is sent
to its client. -/
def deliver (trigger : Trigger) (payload : Payload) (s : Subscription) :
    Subscription :=
  match s.sees trigger payload with
  | some task => { s with received := s.received ++ [task] }
  | none => s

/-- The bus: the open subscriptions, and the trace of every publish call. -/
structure PubSub where
  subs : List Subscription
  published : List (Trigger × Payload)
deriving DecidableEq, Repr

/-- The call `pubsub.publish(trigger, payload)`: every open iterator sees the
event. -/
def PubSub.publish (ps : PubSub) (trigger : Trigger) (payload : Payload) :
    PubSub :=
  { subs := ps.subs.map (deliver trigger payload)
    published := ps.published ++ [(trigger, payload)] }

/-- Opening a subscription `field(teamId: ...)`. -/
def PubSub.subscribe (ps : PubSub) (field : Field) (teamId : String) :
    PubSub :=
  { ps with subs := ps.subs ++ [⟨field, teamId, []⟩] }

/-! ## Mutations -/

/-- The mutable state of the task service. -/
structure Server where
  tasks : List Task
  pubsub : PubSub
deriving DecidableEq, Repr

/-- JS `tasks.findIndex(task => task.id === id)`; `none` stands for `-1`. -/
def findIndex (id : String) : (tasks : List Task) → Option (Fin tasks.length)
  | [] => none
  | t :: ts => if t.id = id then some ⟨0, by simp⟩ else (findIndex id ts).map Fin.succ

/-- JS `description || ''`. -/
def orEmpty : Option String → String
  | none => ""
  | some s => s

/-- JS `assigneeId || null`: the empty string is falsy. -/
def orNull : Option String → Option String
  | none => none
  | some s => if s = "" then none else some s

/-- The mutation `createTask`; `uuid` is the value of `uuidv4()` and `now` the
value of `new Date().toISOString()`. -/
def createTask (uuid now : String) (title : String)
    (description : Option String) (teamId : String)
    (assigneeId : Option String) (st : Server) : Task × Server :=
  let newTask : Task :=
    { id := uuid
      title := title
      description := orEmpty description
      status := .TODO
      assigneeId := orNull assigneeId
      teamId := teamId
      createdAt := now }
  (newTask,
    { tasks := st.tasks ++ [newTask]
      pubsub := st.pubsub.publish .TASK_ADDED (.taskAdded newTask) })

/-- The mutation `updateTaskStatus`: the thrown error or the returned task,
with the state left behind. -/
def updateTaskStatus (id : String) (status : TaskStatus) (st : Server) :
    Except String Task × Server :=
  match findIndex id st.tasks with
  | none => (.error "Task not found", st)
  | some taskIndex =>
    let updatedTask : Task := { st.tasks[taskIndex] with status := status }
    (.ok updatedTask,
      { tasks := st.tasks.set taskIndex updatedTask
        pubsub := st.pubsub.publish .TASK_UPDATED (.taskUpdated updatedTask) })

/-- The mutation `assignTask`. -/
def assignTask (id : String) (assigneeId : String) (st : Server) :
    Except String Task × Server :=
  match findIndex id st.tasks with
  | none => (.error "Task not found", st)
  | some taskIndex =>
    let updatedTask : Task :=
      { st.tasks[taskIndex] with assigneeId := some assigneeId }
    (.ok updatedTask,
      { tasks := st.tasks.set taskIndex updatedTask
        pubsub := st.pubsub.publish .TASK_UPDATED (.taskUpdated updatedTask) })

/-- A run of publish calls, in order. -/
def PubSub.publishAll (ps : PubSub) (events : List (Trigger × Payload)) :
    PubSub :=
  events.foldl (fun acc e => acc.publish e.1 e.2) ps

/-- The payload a mutation publishes for a subscription field. -/
def Field.payload : Field → Task → Payload
  | .taskUpdated, task => .taskUpdated task
  | .taskAdded, task => .taskAdded task

end TaskService

/-! # Theorems -/

namespace Gateway

/-! ## Header lemmas -/

theorem getHeader_filter_ne (h : Headers) (k k' : String) (hne : k' ≠ k) :
    getHeader (h.filter (fun p => p.1 ≠ k)) k' = getHeader h k' := by
  induction h with
  | nil => rfl
  | cons p rest ih =>
    obtain ⟨a, b⟩ := p
    rw [List.filter_cons]
    split
    · rename_i hc
      simp only [getHeader]
      rw [ih]
    · rename_i hc
      have hak : a = k := by simpa using hc
      have hne' : a ≠ k' := fun e => hne (e.symm.trans hak)
      simp only [getHeader, hne', if_false]
      exact ih

theorem getHeader_setHeader_same (h : Headers) (k v : String) :
    getHeader (setHeader h k v) k = some v := by
  simp [setHeader, getHeader]

theorem getHeader_setHeader_other (h : Headers) (k k' v : String)
    (hne : k' ≠ k) : getHeader (setHeader h k v) k' = getHeader h k' := by
  have hne' : k ≠ k' := fun e => hne e.symm
  simp only [setHeader, getHeader, hne', if_false]
  exact getHeader_filter_ne h k k' hne

theorem mem_setHeader (h : Headers) (k v : String) (p : String × String) :
    p ∈ setHeader h k v ↔ p = (k, v) ∨ (p ∈ h ∧ p.1 ≠ k) := by
  simp [setHeader, List.mem_filter]

/-- The three identity writes, as they stand in `verifyToken` and in
`onProxyReq`, seen through header reads. -/
theorem identity_writes (h : Headers) (u : Claims) :
    let h3 :=
      setHeader (setHeader (setHeader h "x-user-id" u.sub) "x-user-name" u.name)
        "x-user-email" u.email
    getHeader h3 "x-user-id" = some u.sub ∧
      getHeader h3 "x-user-name" = some u.name ∧
      getHeader h3 "x-user-email" = some u.email ∧
      (∀ p ∈ h3, (p.1 = "x-user-id" → p.2 = u.sub) ∧
        (p.1 = "x-user-name" → p.2 = u.name) ∧
        (p.1 = "x-user-email" → p.2 = u.email)) ∧
      (∀ k, k ≠ "x-user-id" → k ≠ "x-user-name" → k ≠ "x-user-email" →
        getHeader h3 k = getHeader h k) := by
  intro h3
  have e1 : ("x-user-id" : String) ≠ "x-user-name" := by decide
  have e2 : ("x-user-id" : String) ≠ "x-user-email" := by decide
  have e3 : ("x-user-name" : String) ≠ "x-user-email" := by decide
  refine ⟨?_, ?_, ?_, ?_, ?_⟩
  · simp only [h3]
    rw [getHeader_setHeader_other _ _ _ _ e2, getHeader_setHeader_other _ _ _ _ e1,
      getHeader_setHeader_same]
  · simp only [h3]
    rw [getHeader_setHeader_other _ _ _ _ e3, getHeader_setHeader_same]
  · simp only [h3]
    rw [getHeader_setHeader_same]
  · intro p hp
    simp only [h3, mem_setHeader] at hp
    rcases hp with rfl | ⟨rfl | ⟨rfl | ⟨_, h1⟩, h2⟩, h3'⟩
    · refine ⟨fun e => absurd e.symm e2, fun e => absurd e.symm e3, fun _ => rfl⟩
    · exact ⟨fun e => absurd e.symm e1, fun _ => rfl, fun e => absurd e h3'⟩
    · exact ⟨fun _ => rfl, fun e => absurd e h2, fun e => absurd e h3'⟩
    · exact ⟨fun e => absurd e h1, fun e => absurd e h2, fun e => absurd e h3'⟩
  · intro k k1 k2 k3
    simp only [h3]
    rw [getHeader_setHeader_other _ _ _ _ k3, getHeader_setHeader_other _ _ _ _ k2,
      getHeader_setHeader_other _ _ _ _ k1]

/-! ## Route lemmas -/

theorem stripMount_comparable (m1 m2 p : List Char) (r1 r2 : List Char)
    (h1 : stripMount m1 p = some r1) (h2 : stripMount m2 p = some r2) :
    m1 <+: m2 ∨ m2 <+: m1 := by
  induction m1 generalizing m2 p with
  | nil => exact Or.inl (List.nil_prefix)
  | cons c m1 ih =>
    cases m2 with
    | nil => exact Or.inr (List.nil_prefix)
    | cons d m2 =>
      cases p with
      | nil => simp [stripMount] at h1
      | cons e p =>
        simp only [stripMount] at h1 h2
        split at h1
        · split at h2
          · rename_i hc hd
            have hcd : c = d := hc.trans hd.symm
            subst hcd
            rcases ih m2 p h1 h2 with h | h
            · exact Or.inl ((List.cons_prefix_cons).2 ⟨rfl, h⟩)
            · exact Or.inr ((List.cons_prefix_cons).2 ⟨rfl, h⟩)
          · exact absurd h2 (by simp)
        · exact absurd h1 (by simp)

theorem mountMatches_strip (mount path : String)
    (h : mountMatches mount path = true) :
    ∃ r, stripMount mount.toList path.toList = some r := by
  unfold mountMatches at h
  split at h
  · exact absurd h (by simp)
  · exact ⟨_, by assumption⟩
  · exact ⟨_, by assumption⟩

set_option maxRecDepth 100000 in
theorem routes_incomparable :
    ∀ r1 ∈ routes, ∀ r2 ∈ routes,
      (r1.mount.toList <+: r2.mount.toList ∨ r2.mount.toList <+: r1.mount.toList) →
        r1 = r2 := by
  decide

theorem route_unique (path : String) (r1 r2 : RouteRule) (h1 : r1 ∈ routes)
    (h2 : r2 ∈ routes) (m1 : mountMatches r1.mount path = true)
    (m2 : mountMatches r2.mount path = true) : r1 = r2 := by
  obtain ⟨x1, hx1⟩ := mountMatches_strip _ _ m1
  obtain ⟨x2, hx2⟩ := mountMatches_strip _ _ m2
  exact routes_incomparable r1 h1 r2 h2 (stripMount_comparable _ _ _ _ _ hx1 hx2)

end Gateway

namespace Gateway

theorem route_some (path : String) (r : RouteRule) (h : route path = some r) :
    r ∈ routes ∧ mountMatches r.mount path = true := by
  unfold route at h
  exact ⟨List.mem_of_find?_eq_some h, by simpa using List.find?_some h⟩

set_option maxRecDepth 100000 in
theorem health_incomparable :
    ∀ r ∈ routes,
      ¬ ("/health".toList <+: r.mount.toList ∨ r.mount.toList <+: "/health".toList) := by
  decide

theorem isHealth_route (inc : Incoming) (h : isHealth inc = true) :
    route inc.path = none := by
  cases hr : route inc.path with
  | none => rfl
  | some r =>
    exfalso
    obtain ⟨hmem, hm⟩ := route_some _ _ hr
    obtain ⟨x, hx⟩ := mountMatches_strip _ _ hm
    have hs : ∃ y, stripMount "/health".toList inc.path.toList = some y := by
      unfold isHealth at h
      simp only [Bool.and_eq_true, Bool.or_eq_true, decide_eq_true_eq] at h
      rcases h.2 with h2 | h2
      · exact ⟨_, h2⟩
      · exact ⟨_, h2⟩
    obtain ⟨y, hy⟩ := hs
    exact health_incomparable r hmem (stripMount_comparable _ _ _ _ _ hy hx)

theorem route_not_health (inc : Incoming) (r : RouteRule)
    (h : route inc.path = some r) : isHealth inc = false := by
  cases hh : isHealth inc with
  | false => rfl
  | true => rw [isHealth_route inc hh] at h; exact absurd h (by simp)

end Gateway

namespace Gateway

/-! ## Token verification -/

/-- C1: while `PUBLIC_KEY` is null, `verifyToken` answers every request, whatever
its headers and whatever the verifier would say of its token, with status 503;
it does not call `next()` and leaves the request, its headers included, as it
was. The answer is the whole of what happens to the request: the step holds no
continuation. -/
theorem C1_absent_key_service_unavailable (jwtVerify : JwtVerify) (req : Request) :
    verifyToken jwtVerify none req =
        ⟨req, .respond 503 "Service unavailable. Public key not yet fetched."⟩ ∧
      (verifyToken jwtVerify none req).action ≠ .next ∧
      (verifyToken jwtVerify none req).req.headers = req.headers := by
  refine ⟨rfl, ?_, rfl⟩
  simp [verifyToken]

end Gateway

namespace Gateway

/-- C4: with a key in `PUBLIC_KEY` and a token taken from the Authorization
header, `verifyToken` hands the token to `jwt.verify` with the key and the
algorithm list `[RS256]`; whenever that call fails, for whatever reason, the
answer is 403, `next()` is not called and the request is left as it was; and
`next()` is called only if that call succeeded. -/
theorem C4_failed_validation_forbidden (jwtVerify : JwtVerify) (key token : String)
    (req : Request) (hkey : key ≠ "")
    (htok : extractToken (getHeader req.headers "authorization") = some token) :
    (∀ e, jwtVerify token key ["RS256"] = .error e →
      verifyToken jwtVerify (some key) req =
        ⟨req, .respond 403 "Forbidden: Invalid or expired token"⟩) ∧
    ((verifyToken jwtVerify (some key) req).action = .next →
      ∃ user, jwtVerify token key ["RS256"] = .ok user) := by
  constructor
  · intro e he
    simp [verifyToken, hkey, htok, he]
  · intro hnext
    cases hver : jwtVerify token key ["RS256"] with
    | error e => simp [verifyToken, hkey, htok, hver] at hnext
    | ok user => exact ⟨user, rfl⟩

/-- C4 at a token the verifier rejects. -/
theorem C4_failed_validation_forbidden_witness :
    verifyToken sampleVerify (some "KEY")
        ⟨"GET", "/api/users/me", [("authorization", "Bearer forged")], none⟩ =
      ⟨⟨"GET", "/api/users/me", [("authorization", "Bearer forged")], none⟩,
        .respond 403 "Forbidden: Invalid or expired token"⟩ :=
  (C4_failed_validation_forbidden sampleVerify "KEY" "forged"
    ⟨"GET", "/api/users/me", [("authorization", "Bearer forged")], none⟩
    (by decide) (by decide)).1 "invalid signature" (by rfl)

/-! ## Splitting the Authorization header -/

theorem splitChars_no_sep (sep : Char) (l : List Char) (h : sep ∉ l) :
    splitChars sep l = [l] := by
  induction l with
  | nil => rfl
  | cons c cs ih =>
    have hc : c ≠ sep := fun e => h (by simp [e])
    have hcs : sep ∉ cs := fun e => h (by simp [e])
    simp [splitChars, hc, ih hcs]

theorem splitChars_sep (sep : Char) (w rest : List Char) (h : sep ∉ w) :
    splitChars sep (w ++ sep :: rest) = w :: splitChars sep rest := by
  induction w with
  | nil => simp [splitChars]
  | cons c cs ih =>
    have hc : c ≠ sep := fun e => h (by simp [e])
    have hcs : sep ∉ cs := fun e => h (by simp [e])
    simp [splitChars, hc, ih hcs]

theorem extractToken_one_word (a : String) (hne : a ≠ "")
    (hsp : ' ' ∉ a.toList) : extractToken (some a) = none := by
  have hs : splitSpace a = [String.mk a.toList] := by
    unfold splitSpace
    rw [splitChars_no_sep ' ' a.toList hsp]
    rfl
  simp only [extractToken, hne, if_false, hs]
  rfl

theorem extractToken_two_words (w t : List Char) (hw : ' ' ∉ w) (ht : ' ' ∉ t) :
    extractToken (some (String.mk (w ++ ' ' :: t))) = some (String.mk t) := by
  have hne : String.mk (w ++ ' ' :: t) ≠ "" := by
    intro e
    have := congrArg String.data e
    simp at this
  simp [extractToken, hne, splitSpace, splitChars_sep ' ' w t hw,
    splitChars_no_sep ' ' t ht]

/-- C5, as stated, fails: with a key present, the header `Basic abc` and the
header `Bearer ` (an empty token) are answered 403 when the verifier rejects
the token, and no verifier makes the answer 401. -/
theorem C5_counterexample :
    verifyToken sampleVerify (some "KEY")
        ⟨"GET", "/api/users/me", [("authorization", "Basic abc")], none⟩ =
      ⟨⟨"GET", "/api/users/me", [("authorization", "Basic abc")], none⟩,
        .respond 403 "Forbidden: Invalid or expired token"⟩ ∧
    verifyToken sampleVerify (some "KEY")
        ⟨"GET", "/api/users/me", [("authorization", "Bearer ")], none⟩ =
      ⟨⟨"GET", "/api/users/me", [("authorization", "Bearer ")], none⟩,
        .respond 403 "Forbidden: Invalid or expired token"⟩ ∧
    ¬ ∃ jwtVerify : JwtVerify, ∃ error : String,
      (verifyToken jwtVerify (some "KEY")
        ⟨"GET", "/api/users/me", [("authorization", "Basic abc")], none⟩).action =
        .respond 401 error := by
  refine ⟨by decide, by decide, ?_⟩
  rintro ⟨jwtVerify, error, h⟩
  have htok : extractToken (getHeader [("authorization", "Basic abc")] "authorization") =
      some "abc" := by decide
  cases hver : jwtVerify "abc" "KEY" ["RS256"] with
  | error e => simp [verifyToken, htok, hver] at h
  | ok user => simp [verifyToken, htok, hver] at h

/-- C5, amended: with a key present, `verifyToken` answers 401 without calling
`next()` for every request whose Authorization header is missing or is one
non-empty word without a space (the bare word `Bearer`, say). The word before
the space is not looked at: from a header `w t` of two words, the second of
them not empty, the token `t` goes to the verifier whatever `w` is, and the
answer is 403 or `next()`, as the verifier says. -/
theorem C5_no_token_unauthenticated (jwtVerify : JwtVerify) (key : String)
    (req : Request) (hkey : key ≠ "") :
    (getHeader req.headers "authorization" = none →
      verifyToken jwtVerify (some key) req =
        ⟨req, .respond 401 "Unauthorized: No token provided"⟩) ∧
    (∀ a, getHeader req.headers "authorization" = some a → a ≠ "" →
      ' ' ∉ a.toList →
      verifyToken jwtVerify (some key) req =
        ⟨req, .respond 401 "Unauthorized: No token provided"⟩) ∧
    (∀ w t, getHeader req.headers "authorization" = some (String.mk (w ++ ' ' :: t)) →
      ' ' ∉ w → ' ' ∉ t → t ≠ [] →
      (∀ e, jwtVerify (String.mk t) key ["RS256"] = .error e →
        verifyToken jwtVerify (some key) req =
          ⟨req, .respond 403 "Forbidden: Invalid or expired token"⟩) ∧
      (∀ user, jwtVerify (String.mk t) key ["RS256"] = .ok user →
        (verifyToken jwtVerify (some key) req).action = .next)) := by
  refine ⟨?_, ?_, ?_⟩
  · intro h
    simp [verifyToken, hkey, h, extractToken]
  · intro a h hne hsp
    simp [verifyToken, hkey, h, extractToken_one_word a hne hsp]
  · intro w t h hw ht _
    constructor
    · intro e he
      simp [verifyToken, hkey, h, extractToken_two_words w t hw ht, he]
    · intro user hu
      simp [verifyToken, hkey, h, extractToken_two_words w t hw ht, hu]

/-- C5 amended, at a request whose Authorization header is the bare word
`Bearer`. -/
theorem C5_no_token_unauthenticated_witness :
    verifyToken sampleVerify (some "KEY")
        ⟨"GET", "/api/users/me", [("authorization", "Bearer")], none⟩ =
      ⟨⟨"GET", "/api/users/me", [("authorization", "Bearer")], none⟩,
        .respond 401 "Unauthorized: No token provided"⟩ :=
  (C5_no_token_unauthenticated sampleVerify "KEY"
    ⟨"GET", "/api/users/me", [("authorization", "Bearer")], none⟩ (by decide)).2.1
    "Bearer" (by decide) (by decide) (by decide)

end Gateway

namespace Gateway

/-! ## Route table -/

theorem find?_eq_head?_filter {α : Type} (p : α → Bool) (l : List α) :
    l.find? p = (l.filter p).head? := by
  induction l with
  | nil => rfl
  | cons a l ih =>
    cases h : p a with
    | true => rw [List.find?_cons_of_pos _ h, List.filter_cons_of_pos h, List.head?_cons]
    | false =>
      rw [List.find?_cons_of_neg _ (by simp [h]), List.filter_cons_of_neg (by simp [h]), ih]

theorem length_le_one_of_all_eq {α : Type} (l : List α) (hnd : l.Nodup)
    (h : ∀ a ∈ l, ∀ b ∈ l, a = b) : l.length ≤ 1 := by
  match l, hnd, h with
  | [], _, _ => simp
  | [_], _, _ => simp
  | a :: b :: t, hnd, h =>
    exfalso
    have hab : a = b := h a (by simp) b (by simp)
    subst hab
    simp at hnd

theorem routes_nodup : routes.Nodup := by
  decide

theorem matching_rules_le_one (path : String) :
    (routes.filter (fun r => mountMatches r.mount path)).length ≤ 1 := by
  apply length_le_one_of_all_eq
  · exact routes_nodup.filter _
  · intro a ha b hb
    rw [List.mem_filter] at ha hb
    exact route_unique path a b ha.1 hb.1 ha.2 hb.2

end Gateway

namespace TaskService

/-! ## Delivery lemmas -/

theorem publish_subs (ps : PubSub) (trigger : Trigger) (payload : Payload) (i : Nat) :
    (ps.publish trigger payload).subs[i]? = (ps.subs[i]?).map (deliver trigger payload) := by
  simp [PubSub.publish]

theorem sees_some (s : Subscription) (trigger : Trigger) (payload : Payload)
    (task : Task) :
    s.sees trigger payload = some task ↔
      trigger = s.field.trigger ∧ payload = s.field.payload task ∧
        task.teamId = s.teamId := by
  obtain ⟨f, team, rcv⟩ := s
  cases f <;> cases trigger <;> cases payload <;>
    simp [Subscription.sees, Field.trigger, Field.payload, filterFn] <;>
    exact ⟨fun h => ⟨h.2, h.2 ▸ h.1⟩, fun h => ⟨h.1 ▸ h.2, h.1⟩⟩

theorem foldl_deliver (events : List (Trigger × Payload)) (s : Subscription) :
    events.foldl (fun acc e => deliver e.1 e.2 acc) s =
      { s with
        received := s.received ++ events.filterMap (fun e => s.sees e.1 e.2) } := by
  induction events generalizing s with
  | nil => simp
  | cons e es ih =>
    rw [List.foldl_cons, ih]
    cases h : s.sees e.1 e.2 with
    | none =>
      have hd : deliver e.1 e.2 s = s := by simp [deliver, h]
      rw [hd, List.filterMap_cons, h]
    | some task =>
      have hd : deliver e.1 e.2 s = { s with received := s.received ++ [task] } := by
        simp [deliver, h]
      rw [hd, List.filterMap_cons, h]
      simp [Subscription.sees]

theorem publishAll_subs (ps : PubSub) (events : List (Trigger × Payload)) (i : Nat)
    (s : Subscription) (h : ps.subs[i]? = some s) :
    (ps.publishAll events).subs[i]? =
      some (events.foldl (fun acc e => deliver e.1 e.2 acc) s) := by
  induction events generalizing ps s with
  | nil => simpa [PubSub.publishAll] using h
  | cons e es ih =>
    have hstep : (ps.publish e.1 e.2).subs[i]? = some (deliver e.1 e.2 s) := by
      rw [publish_subs, h]
      rfl
    have := ih (ps.publish e.1 e.2) (deliver e.1 e.2 s) hstep
    simpa [PubSub.publishAll] using this

end TaskService

namespace TaskService

/-! ## Subscriptions -/

/-- C6: an open subscription `taskUpdated(teamId: V)` (resp. `taskAdded`) is sent
a task published on `TASK_UPDATED` (resp. `TASK_ADDED`) if and only if the
`teamId` of the task equals `V`, whatever other subscriptions are open. Over
any run of publish calls, what a subscription is sent is exactly the events of
its trigger with its `teamId`; two subscriptions of one field with different
`teamId` are sent no task in common, and two with the same `teamId` are sent
the same tasks, each of them every one. -/
theorem C6_delivery_iff_team_matches (ps : PubSub) (events : List (Trigger × Payload))
    (i j : Nat) (s1 s2 : Subscription) (h1 : ps.subs[i]? = some s1)
    (h2 : ps.subs[j]? = some s2) :
    (∀ task,
      (ps.publish s1.field.trigger (s1.field.payload task)).subs[i]? =
        some (if task.teamId = s1.teamId then
          { s1 with received := s1.received ++ [task] } else s1)) ∧
    ∃ d1 d2 : List Task,
      (ps.publishAll events).subs[i]? = some { s1 with received := s1.received ++ d1 } ∧
      (ps.publishAll events).subs[j]? = some { s2 with received := s2.received ++ d2 } ∧
      (∀ task, task ∈ d1 ↔
        (s1.field.trigger, s1.field.payload task) ∈ events ∧ task.teamId = s1.teamId) ∧
      (∀ task, task ∈ d2 ↔
        (s2.field.trigger, s2.field.payload task) ∈ events ∧ task.teamId = s2.teamId) ∧
      (s1.field = s2.field → s1.teamId ≠ s2.teamId → ∀ task, task ∈ d1 → task ∉ d2) ∧
      (s1.field = s2.field → s1.teamId = s2.teamId → d1 = d2) := by
  have hmem : ∀ (s : Subscription) (task : Task),
      task ∈ events.filterMap (fun e => s.sees e.1 e.2) ↔
        (s.field.trigger, s.field.payload task) ∈ events ∧ task.teamId = s.teamId := by
    intro s task
    rw [List.mem_filterMap]
    constructor
    · rintro ⟨⟨tr, p⟩, he, hs⟩
      obtain ⟨rfl, rfl, ht⟩ := (sees_some s tr p task).1 hs
      exact ⟨he, ht⟩
    · rintro ⟨he, ht⟩
      exact ⟨_, he, (sees_some s _ _ task).2 ⟨rfl, rfl, ht⟩⟩
  constructor
  · intro task
    rw [publish_subs, h1]
    by_cases ht : task.teamId = s1.teamId
    · have hs := (sees_some s1 _ _ task).2 ⟨rfl, rfl, ht⟩
      simp [deliver, hs, ht]
    · have hs : s1.sees s1.field.trigger (s1.field.payload task) = none := by
        cases h : s1.sees s1.field.trigger (s1.field.payload task) with
        | none => rfl
        | some t =>
          obtain ⟨_, hp, hteam⟩ := (sees_some s1 _ _ t).1 h
          have : task = t := by
            cases hf : s1.field <;> rw [hf] at hp <;> simpa [Field.payload] using hp
          exact absurd (this ▸ hteam) ht
      simp [deliver, hs, ht]
  · refine ⟨events.filterMap (fun e => s1.sees e.1 e.2),
      events.filterMap (fun e => s2.sees e.1 e.2), ?_, ?_, hmem s1, hmem s2, ?_, ?_⟩
    · rw [publishAll_subs ps events i s1 h1, foldl_deliver]
    · rw [publishAll_subs ps events j s2 h2, foldl_deliver]
    · intro _ hne task hd1 hd2
      exact hne (((hmem s1 task).1 hd1).2.symm.trans ((hmem s2 task).1 hd2).2)
    · intro hf ht
      have : (fun e : Trigger × Payload => s1.sees e.1 e.2) = fun e => s2.sees e.1 e.2 := by
        funext e
        simp [Subscription.sees, hf, ht]
      rw [this]

/-- C6 on a bus with two `taskUpdated` subscriptions, for `team-1` and for
`team-2`: a task of `team-1` published on `TASK_UPDATED` reaches the first. -/
theorem C6_delivery_iff_team_matches_witness :
    (PubSub.publish ⟨[⟨.taskUpdated, "team-1", []⟩, ⟨.taskUpdated, "team-2", []⟩], []⟩
      .TASK_UPDATED
      (.taskUpdated ⟨"7", "t", "", .DONE, none, "team-1", "now"⟩)).subs[0]? =
      some ⟨.taskUpdated, "team-1", [⟨"7", "t", "", .DONE, none, "team-1", "now"⟩]⟩ :=
  (C6_delivery_iff_team_matches
    ⟨[⟨.taskUpdated, "team-1", []⟩, ⟨.taskUpdated, "team-2", []⟩], []⟩ [] 0 1
    ⟨.taskUpdated, "team-1", []⟩ ⟨.taskUpdated, "team-2", []⟩ rfl rfl).1
    ⟨"7", "t", "", .DONE, none, "team-1", "now"⟩

/-! ## createTask -/

/-- C7, as stated, fails: a `taskUpdated` subscription for `team-1`, open when
`createTask` is called with `teamId` `team-1`, is sent nothing; the one event
of the call is published on `TASK_ADDED`. -/
theorem C7_counterexample :
    (createTask "id-3" "now" "Write report" none "team-1" none
        ⟨[], ⟨[⟨.taskUpdated, "team-1", []⟩], []⟩⟩).2.pubsub =
      ⟨[⟨.taskUpdated, "team-1", []⟩],
        [(.TASK_ADDED,
          .taskAdded ⟨"id-3", "Write report", "", .TODO, none, "team-1", "now"⟩)]⟩ := by
  decide

/-- C7, amended: `createTask` returns and appends to the store the new task in
its initial state (status `TODO`, description `''` and assignee `null` when
not given, the given title and `teamId`) and publishes it once, on
`TASK_ADDED`. An open `taskAdded` subscription with the `teamId` of the call is
sent exactly that one task; a `taskAdded` subscription with another `teamId`,
and every `taskUpdated` subscription, is sent nothing. -/
theorem C7_createTask_delivers_on_taskAdded (uuid now title : String)
    (description : Option String) (teamId : String) (assigneeId : Option String)
    (st : Server) (i : Nat) (s : Subscription) (h : st.pubsub.subs[i]? = some s) :
    ∃ newTask : Task,
      createTask uuid now title description teamId assigneeId st =
        (newTask,
          ⟨st.tasks ++ [newTask],
            st.pubsub.publish .TASK_ADDED (.taskAdded newTask)⟩) ∧
      newTask.id = uuid ∧ newTask.title = title ∧ newTask.status = .TODO ∧
      newTask.teamId = teamId ∧ newTask.createdAt = now ∧
      (description = none → newTask.description = "") ∧
      (∀ d, description = some d → newTask.description = d) ∧
      (assigneeId = none → newTask.assigneeId = none) ∧
      (∀ a, assigneeId = some a → a ≠ "" → newTask.assigneeId = some a) ∧
      (st.pubsub.publish .TASK_ADDED (.taskAdded newTask)).published =
        st.pubsub.published ++ [(.TASK_ADDED, .taskAdded newTask)] ∧
      (s.field = .taskAdded → s.teamId = teamId →
        (st.pubsub.publish .TASK_ADDED (.taskAdded newTask)).subs[i]? =
          some { s with received := s.received ++ [newTask] }) ∧
      (s.field = .taskAdded → s.teamId ≠ teamId →
        (st.pubsub.publish .TASK_ADDED (.taskAdded newTask)).subs[i]? = some s) ∧
      (s.field = .taskUpdated →
        (st.pubsub.publish .TASK_ADDED (.taskAdded newTask)).subs[i]? = some s) := by
  refine ⟨⟨uuid, title, orEmpty description, .TODO, orNull assigneeId, teamId, now⟩,
    rfl, rfl, rfl, rfl, rfl, rfl, ?_, ?_, ?_, ?_, rfl, ?_, ?_, ?_⟩
  · intro hd; subst hd; rfl
  · intro d hd; subst hd; rfl
  · intro ha; subst ha; rfl
  · intro a ha hne; subst ha; simp [orNull, hne]
  · intro hf ht
    rw [publish_subs, h]
    obtain ⟨f, team, rcv⟩ := s
    simp only at hf ht
    subst hf ht
    simp [deliver, Subscription.sees, Field.trigger, filterFn]
  · intro hf ht
    rw [publish_subs, h]
    obtain ⟨f, team, rcv⟩ := s
    simp only at hf ht
    subst hf
    have ht' : ¬ teamId = team := fun e => ht e.symm
    simp [deliver, Subscription.sees, Field.trigger, filterFn, ht']
  · intro hf
    rw [publish_subs, h]
    obtain ⟨f, team, rcv⟩ := s
    simp only at hf
    subst hf
    simp [deliver, Subscription.sees, Field.trigger]

/-- C7 amended, at a bus with a `taskAdded` subscription for `team-1`. -/
theorem C7_createTask_delivers_on_taskAdded_witness :
    ∃ newTask : Task,
      createTask "id-3" "now" "Write report" none "team-1" none
          ⟨[], ⟨[⟨.taskAdded, "team-1", []⟩], []⟩⟩ =
        (newTask,
          ⟨[] ++ [newTask],
            PubSub.publish ⟨[⟨.taskAdded, "team-1", []⟩], []⟩ .TASK_ADDED
              (.taskAdded newTask)⟩) ∧
      newTask.id = "id-3" :=
  let ⟨t, h⟩ := C7_createTask_delivers_on_taskAdded "id-3" "now" "Write report" none
    "team-1" none ⟨[], ⟨[⟨.taskAdded, "team-1", []⟩], []⟩⟩ 0 ⟨.taskAdded, "team-1", []⟩ rfl
  ⟨t, h.1, h.2.1⟩

end TaskService

namespace TaskService

/-! ## updateTaskStatus and assignTask -/

theorem findIndex_none (id : String) (tasks : List Task) :
    findIndex id tasks = none ↔ ∀ t ∈ tasks, t.id ≠ id := by
  induction tasks with
  | nil => simp [findIndex]
  | cons t ts ih =>
    by_cases h : t.id = id
    · simp [findIndex, h]
    · simp [findIndex, h, ih]

theorem findIndex_some (id : String) (tasks : List Task) (i : Fin tasks.length)
    (h : findIndex id tasks = some i) :
    tasks[i].id = id ∧ ∀ j : Nat, j < i.val → ∀ t, tasks[j]? = some t → t.id ≠ id := by
  induction tasks with
  | nil => exact absurd i.isLt (by simp)
  | cons t ts ih =>
    by_cases ht : t.id = id
    · simp only [findIndex, ht, if_true, Option.some.injEq] at h
      subst h
      exact ⟨ht, fun j hj => absurd hj (by simp)⟩
    · simp only [findIndex, ht, if_false, Option.map_eq_some'] at h
      obtain ⟨k, hk, rfl⟩ := h
      obtain ⟨h1, h2⟩ := ih k hk
      refine ⟨by simpa using h1, ?_⟩
      intro j hj u hu
      cases j with
      | zero =>
        simp only [List.getElem?_cons_zero, Option.some.injEq] at hu
        subst hu
        exact ht
      | succ j =>
        simp only [List.getElem?_cons_succ] at hu
        exact h2 j (by simpa using hj) u hu

/-- C8: when some stored task has the id, `updateTaskStatus(id, status)`
publishes one event, on `TASK_UPDATED`; the task it publishes, the task it
returns and the task it stores are one value, the first stored task with that
id with `status` replaced and every other field kept; it is stored at the
place of the old one, and every other place, the order and the length of the
store stay as they were. -/
theorem C8_updateTaskStatus_frame (id : String) (status : TaskStatus) (st : Server)
    (h : ∃ t ∈ st.tasks, t.id = id) :
    ∃ (idx : Nat) (old : Task),
      st.tasks[idx]? = some old ∧ old.id = id ∧
      (∀ j, j < idx → ∀ t, st.tasks[j]? = some t → t.id ≠ id) ∧
      (updateTaskStatus id status st).1 =
        .ok ⟨old.id, old.title, old.description, status, old.assigneeId, old.teamId,
          old.createdAt⟩ ∧
      (updateTaskStatus id status st).2.tasks[idx]? =
        some ⟨old.id, old.title, old.description, status, old.assigneeId, old.teamId,
          old.createdAt⟩ ∧
      (updateTaskStatus id status st).2.pubsub.published =
        st.pubsub.published ++
          [(.TASK_UPDATED,
            .taskUpdated ⟨old.id, old.title, old.description, status, old.assigneeId,
              old.teamId, old.createdAt⟩)] ∧
      (updateTaskStatus id status st).2.tasks.length = st.tasks.length ∧
      (∀ j, j ≠ idx → (updateTaskStatus id status st).2.tasks[j]? = st.tasks[j]?) ∧
      (updateTaskStatus id status st).2.tasks.map (·.id) = st.tasks.map (·.id) := by
  cases hf : findIndex id st.tasks with
  | none =>
    obtain ⟨t, ht, hid⟩ := h
    exact absurd hid ((findIndex_none id st.tasks).1 hf t ht)
  | some i =>
    obtain ⟨hid, hfirst⟩ := findIndex_some id st.tasks i hf
    refine ⟨i.val, st.tasks[i], ?_, hid, hfirst, ?_, ?_, ?_, ?_, ?_, ?_⟩
    · simp
    · simp [updateTaskStatus, hf]
    · simp [updateTaskStatus, hf]
    · simp [updateTaskStatus, hf, PubSub.publish]
    · simp [updateTaskStatus, hf]
    · intro j hj
      simp [updateTaskStatus, hf, List.getElem?_set_ne (Ne.symm hj)]
    · simp only [updateTaskStatus, hf]
      apply List.ext_getElem?
      intro j
      by_cases hj : j = i.val
      · subst hj
        simp
      · simp [List.getElem?_set_ne (Ne.symm hj)]

/-- C8 on a store of two tasks, the second of which is updated. -/
theorem C8_updateTaskStatus_frame_witness :
    ∃ (idx : Nat) (old : Task),
      ([⟨"1", "a", "", .IN_PROGRESS, some "1", "team-1", "t0"⟩,
          ⟨"2", "b", "", .TODO, some "2", "team-1", "t0"⟩] : List Task)[idx]? = some old ∧
      old.id = "2" :=
  let ⟨idx, old, h⟩ := C8_updateTaskStatus_frame "2" .DONE
    ⟨[⟨"1", "a", "", .IN_PROGRESS, some "1", "team-1", "t0"⟩,
      ⟨"2", "b", "", .TODO, some "2", "team-1", "t0"⟩], ⟨[], []⟩⟩
    ⟨⟨"2", "b", "", .TODO, some "2", "team-1", "t0"⟩, by simp, rfl⟩
  ⟨idx, old, h.1, h.2.1⟩

/-- C9: when no stored task has the id, `updateTaskStatus` and `assignTask`
throw `Task not found` and leave the whole state as it was: the task store,
the trace of published events, and what every open subscription has been
sent. They throw in no other case. -/
theorem C9_unknown_id_fails_without_effect (id : String) (status : TaskStatus)
    (assigneeId : String) (st : Server) :
    ((∀ t ∈ st.tasks, t.id ≠ id) →
      updateTaskStatus id status st = (.error "Task not found", st) ∧
      assignTask id assigneeId st = (.error "Task not found", st)) ∧
    (∀ e, (updateTaskStatus id status st).1 = .error e → ∀ t ∈ st.tasks, t.id ≠ id) ∧
    (∀ e, (assignTask id assigneeId st).1 = .error e → ∀ t ∈ st.tasks, t.id ≠ id) := by
  refine ⟨?_, ?_, ?_⟩
  · intro hno
    have hf := (findIndex_none id st.tasks).2 hno
    simp [updateTaskStatus, assignTask, hf]
  · intro e he
    cases hf : findIndex id st.tasks with
    | none => exact (findIndex_none id st.tasks).1 hf
    | some i => simp [updateTaskStatus, hf] at he
  · intro e he
    cases hf : findIndex id st.tasks with
    | none => exact (findIndex_none id st.tasks).1 hf
    | some i => simp [assignTask, hf] at he

/-- C9 on a store that holds the ids `1` and `2`, asked for the id `9`, with a
subscription open. -/
theorem C9_unknown_id_fails_without_effect_witness :
    updateTaskStatus "9" .DONE
        ⟨[⟨"1", "a", "", .IN_PROGRESS, some "1", "team-1", "t0"⟩,
            ⟨"2", "b", "", .TODO, some "2", "team-1", "t0"⟩],
          ⟨[⟨.taskUpdated, "team-1", []⟩], []⟩⟩ =
      (.error "Task not found",
        ⟨[⟨"1", "a", "", .IN_PROGRESS, some "1", "team-1", "t0"⟩,
            ⟨"2", "b", "", .TODO, some "2", "team-1", "t0"⟩],
          ⟨[⟨.taskUpdated, "team-1", []⟩], []⟩⟩) :=
  ((C9_unknown_id_fails_without_effect "9" .DONE "5"
    ⟨[⟨"1", "a", "", .IN_PROGRESS, some "1", "team-1", "t0"⟩,
        ⟨"2", "b", "", .TODO, some "2", "team-1", "t0"⟩],
      ⟨[⟨.taskUpdated, "team-1", []⟩], []⟩⟩).1 (by decide)).1

end TaskService

namespace Gateway

/-! ## Public and protected routes -/

theorem route_of_match (path : String) (r : RouteRule) (hr : r ∈ routes)
    (hm : mountMatches r.mount path = true) : route path = some r := by
  cases hroute : route path with
  | none =>
    unfold route at hroute
    rw [List.find?_eq_none] at hroute
    exact absurd hm (hroute r hr)
  | some r' =>
    obtain ⟨hr', hm'⟩ := route_some _ _ hroute
    rw [route_unique path r r' hr hr' hm hm']

theorem users_not_health (inc : Incoming)
    (h : mountMatches "/api/users" inc.path = true) : isHealth inc = false := by
  cases hh : isHealth inc with
  | false => rfl
  | true =>
    exfalso
    obtain ⟨x, hx⟩ := mountMatches_strip _ _ h
    have hs : ∃ y, stripMount "/health".toList inc.path.toList = some y := by
      unfold isHealth at hh
      simp only [Bool.and_eq_true, Bool.or_eq_true, decide_eq_true_eq] at hh
      rcases hh.2 with h2 | h2
      · exact ⟨_, h2⟩
      · exact ⟨_, h2⟩
    obtain ⟨y, hy⟩ := hs
    have hc := stripMount_comparable _ _ _ _ _ hy hx
    revert hc
    decide

end Gateway

namespace Gateway

/-! ## The gateway around the route layers -/

theorem proxy_forwarded (host : String) (target : Upstream) (req : Request)
    (out : ProxyReq) (h : proxy host target req = .forwarded out) :
    out = ⟨target, req.method, req.path,
        onProxyReq { req with headers := setHeader req.headers "host" host }⟩ ∧
      ∀ p ∈ out.headers, validHeaderValue p.2 = true := by
  unfold proxy at h
  simp only at h
  split at h
  · rename_i hall
    have ho := Result.forwarded.inj h
    subst ho
    exact ⟨rfl, by simpa [List.all_eq_true] using hall⟩
  · exact absurd h (by simp)

theorem proxy_of_valid (host : String) (target : Upstream) (req : Request)
    (hall : ∀ p ∈ onProxyReq { req with headers := setHeader req.headers "host" host },
      validHeaderValue p.2 = true) :
    proxy host target req =
      .forwarded ⟨target, req.method, req.path,
        onProxyReq { req with headers := setHeader req.headers "host" host }⟩ := by
  unfold proxy
  simp only
  rw [if_pos]
  simpa [List.all_eq_true] using hall

theorem gateway_request_forwarded (hostOf : Upstream → String) (jwtVerify : JwtVerify)
    (PUBLIC_KEY : Option String) (limited listening : Bool) (inc : Incoming)
    (out : ProxyReq)
    (h : gateway hostOf jwtVerify PUBLIC_KEY limited listening (.request inc) =
      .forwarded out) :
    inc.method ≠ "OPTIONS" ∧ limited = false ∧
      routeLayers hostOf jwtVerify PUBLIC_KEY inc = .forwarded out := by
  simp only [gateway] at h
  by_cases h1 : inc.method = "OPTIONS"
  · simp [h1] at h
  · cases limited with
    | true => simp [h1] at h
    | false => exact ⟨h1, rfl, by simpa [h1] using h⟩

theorem gateway_request_passed (hostOf : Upstream → String) (jwtVerify : JwtVerify)
    (PUBLIC_KEY : Option String) (listening : Bool) (inc : Incoming)
    (hm : inc.method ≠ "OPTIONS") :
    gateway hostOf jwtVerify PUBLIC_KEY false listening (.request inc) =
      routeLayers hostOf jwtVerify PUBLIC_KEY inc := by
  simp [gateway, hm]

/-- The route layers on a rule with `requiresAuth`, when the token verifies. -/
theorem routeLayers_verified (hostOf : Upstream → String) (jwtVerify : JwtVerify)
    (key token : String) (user : Claims) (inc : Incoming) (r : RouteRule)
    (hkey : key ≠ "") (hr : route inc.path = some r) (hauth : r.requiresAuth = true)
    (htok : extractToken (getHeader inc.headers "authorization") = some token)
    (hver : jwtVerify token key ["RS256"] = .ok user) :
    routeLayers hostOf jwtVerify (some key) inc =
      proxy (hostOf r.target) r.target
        ⟨inc.method, inc.path,
          setHeader
            (setHeader (setHeader inc.headers "x-user-id" user.sub)
              "x-user-name" user.name)
            "x-user-email" user.email,
          some user⟩ := by
  have hh := route_not_health inc r hr
  simp [routeLayers, hh, hr, hauth, verifyToken, hkey, Incoming.toRequest, htok, hver]

/-- What a forward on a rule with `requiresAuth` implies. -/
theorem routeLayers_forwarded_auth (hostOf : Upstream → String) (jwtVerify : JwtVerify)
    (PUBLIC_KEY : Option String) (inc : Incoming) (r : RouteRule) (out : ProxyReq)
    (hr : route inc.path = some r) (hauth : r.requiresAuth = true)
    (hfw : routeLayers hostOf jwtVerify PUBLIC_KEY inc = .forwarded out) :
    ∃ key token user, PUBLIC_KEY = some key ∧ key ≠ "" ∧
      extractToken (getHeader inc.headers "authorization") = some token ∧
      jwtVerify token key ["RS256"] = .ok user := by
  have hh := route_not_health inc r hr
  cases PUBLIC_KEY with
  | none => simp [routeLayers, hh, hr, hauth, verifyToken] at hfw
  | some key =>
    by_cases hkey : key = ""
    · simp [routeLayers, hh, hr, hauth, verifyToken, hkey] at hfw
    · cases htok : extractToken (getHeader inc.headers "authorization") with
      | none =>
        simp [routeLayers, hh, hr, hauth, verifyToken, hkey, Incoming.toRequest, htok]
          at hfw
      | some token =>
        cases hver : jwtVerify token key ["RS256"] with
        | error e =>
          simp [routeLayers, hh, hr, hauth, verifyToken, hkey, Incoming.toRequest, htok,
            hver] at hfw
        | ok user => exact ⟨key, token, user, rfl, hkey, rfl, hver⟩

end Gateway

namespace Gateway

/-! ## Identity headers -/

theorem valid_setHeader (h : Headers) (k v : String)
    (hh : ∀ p ∈ h, validHeaderValue p.2 = true) (hv : validHeaderValue v = true) :
    ∀ p ∈ setHeader h k v, validHeaderValue p.2 = true := by
  intro p hp
  rcases (mem_setHeader h k v p).1 hp with rfl | ⟨hm, _⟩
  · exact hv
  · exact hh p hm

/-- The request sent upstream for a verified request on a rule with
`requiresAuth`, if one is sent. -/
theorem verified_out (hostOf : Upstream → String) (jwtVerify : JwtVerify)
    (key token : String) (user : Claims) (inc : Incoming) (r : RouteRule)
    (out : ProxyReq) (hkey : key ≠ "") (hr : route inc.path = some r)
    (hauth : r.requiresAuth = true)
    (htok : extractToken (getHeader inc.headers "authorization") = some token)
    (hver : jwtVerify token key ["RS256"] = .ok user)
    (hfw : routeLayers hostOf jwtVerify (some key) inc = .forwarded out) :
    out.target = r.target ∧
      getHeader out.headers "x-user-id" = some user.sub ∧
      getHeader out.headers "x-user-name" = some user.name ∧
      getHeader out.headers "x-user-email" = some user.email ∧
      ∀ p ∈ out.headers, (p.1 = "x-user-id" → p.2 = user.sub) ∧
        (p.1 = "x-user-name" → p.2 = user.name) ∧
        (p.1 = "x-user-email" → p.2 = user.email) := by
  rw [routeLayers_verified hostOf jwtVerify key token user inc r hkey hr hauth htok hver]
    at hfw
  obtain ⟨ho, _⟩ := proxy_forwarded _ _ _ _ hfw
  subst ho
  have h := identity_writes
    (setHeader
      (setHeader (setHeader (setHeader inc.headers "x-user-id" user.sub)
        "x-user-name" user.name) "x-user-email" user.email)
      "host" (hostOf r.target)) user
  exact ⟨rfl, h.1, h.2.1, h.2.2.1, h.2.2.2.1⟩

/-- C2: on a route with `verifyToken`, when the token of the request verifies
with claims `user`, the request sent upstream carries `x-user-id = user.sub`,
`x-user-name = user.name` and `x-user-email = user.email`, and no other value
under these three names, whatever headers the caller sent. A request is sent
upstream when the request is not `OPTIONS`, the rate limit is not used up and
Node accepts every header value, the three claims among them. -/
theorem C2_verified_identity_overwrites (hostOf : Upstream → String)
    (jwtVerify : JwtVerify) (key token : String) (user : Claims) (inc : Incoming)
    (r : RouteRule) (limited listening : Bool) (hkey : key ≠ "")
    (hr : route inc.path = some r) (hauth : r.requiresAuth = true)
    (htok : extractToken (getHeader inc.headers "authorization") = some token)
    (hver : jwtVerify token key ["RS256"] = .ok user) :
    (∀ out,
      gateway hostOf jwtVerify (some key) limited listening (.request inc) =
        .forwarded out →
      out.target = r.target ∧
      getHeader out.headers "x-user-id" = some user.sub ∧
      getHeader out.headers "x-user-name" = some user.name ∧
      getHeader out.headers "x-user-email" = some user.email ∧
      ∀ p ∈ out.headers, (p.1 = "x-user-id" → p.2 = user.sub) ∧
        (p.1 = "x-user-name" → p.2 = user.name) ∧
        (p.1 = "x-user-email" → p.2 = user.email)) ∧
    (inc.method ≠ "OPTIONS" → limited = false →
      validHeaderValue user.sub = true → validHeaderValue user.name = true →
      validHeaderValue user.email = true →
      validHeaderValue (hostOf r.target) = true →
      (∀ p ∈ inc.headers, validHeaderValue p.2 = true) →
      ∃ out,
        gateway hostOf jwtVerify (some key) limited listening (.request inc) =
          .forwarded out) := by
  constructor
  · intro out hfw
    obtain ⟨_, _, hrl⟩ := gateway_request_forwarded _ _ _ _ _ _ _ hfw
    exact verified_out hostOf jwtVerify key token user inc r out hkey hr hauth htok hver hrl
  · intro hm hl hs hn he hhost hin
    subst hl
    rw [gateway_request_passed _ _ _ _ _ hm,
      routeLayers_verified hostOf jwtVerify key token user inc r hkey hr hauth htok hver]
    refine ⟨_, proxy_of_valid _ _ _ ?_⟩
    simp only [onProxyReq]
    apply valid_setHeader _ _ _ _ he
    apply valid_setHeader _ _ _ _ hn
    apply valid_setHeader _ _ _ _ hs
    apply valid_setHeader _ _ _ _ hhost
    apply valid_setHeader _ _ _ _ he
    apply valid_setHeader _ _ _ _ hn
    apply valid_setHeader _ _ _ _ hs
    exact hin

/-- C2 at a request to `/api/users/me` that claims to be user `1` and whose
token verifies as user `42`. -/
theorem C2_verified_identity_overwrites_witness :
    ∃ out,
      gateway defaultHost sampleVerify (some "KEY") false false
          (.request ⟨"GET", "/api/users/me",
            [("authorization", "Bearer good"), ("x-user-id", "1")]⟩) =
        .forwarded out ∧
      getHeader out.headers "x-user-id" = some "42" ∧
      getHeader out.headers "x-user-name" = some "alice" ∧
      getHeader out.headers "x-user-email" = some "a@x.com" :=
  have h := C2_verified_identity_overwrites defaultHost sampleVerify "KEY" "good"
    ⟨"42", "alice", "a@x.com"⟩
    ⟨"GET", "/api/users/me", [("authorization", "Bearer good"), ("x-user-id", "1")]⟩
    ⟨"/api/users/me", true, .USER_SERVICE⟩ false false (by decide) (by decide) rfl
    (by decide) (by rfl)
  let ⟨out, ho⟩ := h.2 (by decide) rfl (by decide) (by decide) (by decide) (by decide)
    (by decide)
  ⟨out, ho, (h.1 out ho).2.1, (h.1 out ho).2.2.1, (h.1 out ho).2.2.2.1⟩

end Gateway

namespace Gateway

/-- C3, as stated, fails: on the public route `/api/users/login` a request
without any credential is forwarded with the `x-user-id` its caller wrote, so
two requests that differ only in that header are forwarded with different
identity headers. -/
theorem C3_counterexample :
    gateway defaultHost sampleVerify (some "KEY") false false
        (.request ⟨"POST", "/api/users/login", [("x-user-id", "admin")]⟩) =
      .forwarded
        ⟨.USER_SERVICE, "POST", "/api/users/login",
          [("host", "localhost:3001"), ("x-user-id", "admin")]⟩ ∧
    gateway defaultHost sampleVerify (some "KEY") false false
        (.request ⟨"POST", "/api/users/login", [("x-user-id", "guest")]⟩) =
      .forwarded
        ⟨.USER_SERVICE, "POST", "/api/users/login",
          [("host", "localhost:3001"), ("x-user-id", "guest")]⟩ := by
  decide

/-- C3, amended: when the gateway forwards an ordinary request on a route with
`verifyToken` (`/api/users/me`, `/graphql`), a token of that request has
verified and the three identity headers sent upstream are its claims; hence a
second request to the same path that differs from it only in the three
`x-user-*` headers and is forwarded too is sent with the same identity
headers. On a public route every header but `host` is sent upstream as it
came, the `x-user-*` headers of the caller among them. -/
theorem C3_gateway_asserted_on_protected_routes (hostOf : Upstream → String)
    (jwtVerify : JwtVerify) (PUBLIC_KEY : Option String) (limited listening : Bool)
    (inc : Incoming) (r : RouteRule) (out : ProxyReq)
    (hr : route inc.path = some r)
    (hfw : gateway hostOf jwtVerify PUBLIC_KEY limited listening (.request inc) =
      .forwarded out) :
    (r.requiresAuth = true →
      (∃ key token user, PUBLIC_KEY = some key ∧
        extractToken (getHeader inc.headers "authorization") = some token ∧
        jwtVerify token key ["RS256"] = .ok user ∧
        getHeader out.headers "x-user-id" = some user.sub ∧
        getHeader out.headers "x-user-name" = some user.name ∧
        getHeader out.headers "x-user-email" = some user.email) ∧
      ∀ inc2 out2 limited2 listening2, inc2.path = inc.path →
        (∀ k, k ≠ "x-user-id" → k ≠ "x-user-name" → k ≠ "x-user-email" →
          getHeader inc2.headers k = getHeader inc.headers k) →
        gateway hostOf jwtVerify PUBLIC_KEY limited2 listening2 (.request inc2) =
          .forwarded out2 →
        getHeader out2.headers "x-user-id" = getHeader out.headers "x-user-id" ∧
        getHeader out2.headers "x-user-name" = getHeader out.headers "x-user-name" ∧
        getHeader out2.headers "x-user-email" = getHeader out.headers "x-user-email") ∧
    (r.requiresAuth = false →
      ∀ k, k ≠ "host" → getHeader out.headers k = getHeader inc.headers k) := by
  obtain ⟨_, _, hrl⟩ := gateway_request_forwarded _ _ _ _ _ _ _ hfw
  constructor
  · intro hauth
    obtain ⟨key, token, user, hk, hkey, htok, hver⟩ :=
      routeLayers_forwarded_auth hostOf jwtVerify PUBLIC_KEY inc r out hr hauth hrl
    subst hk
    have hhead :=
      verified_out hostOf jwtVerify key token user inc r out hkey hr hauth htok hver hrl
    refine ⟨⟨key, token, user, rfl, htok, hver, hhead.2.1, hhead.2.2.1, hhead.2.2.2.1⟩, ?_⟩
    intro inc2 out2 limited2 listening2 hpath hsame hfw2
    obtain ⟨_, _, hrl2⟩ := gateway_request_forwarded _ _ _ _ _ _ _ hfw2
    have hr2 : route inc2.path = some r := by rw [hpath]; exact hr
    have htok2 : extractToken (getHeader inc2.headers "authorization") = some token := by
      rw [hsame "authorization" (by decide) (by decide) (by decide)]
      exact htok
    have hhead2 :=
      verified_out hostOf jwtVerify key token user inc2 r out2 hkey hr2 hauth htok2 hver
        hrl2
    rw [hhead.2.1, hhead.2.2.1, hhead.2.2.2.1]
    exact ⟨hhead2.2.1, hhead2.2.2.1, hhead2.2.2.2.1⟩
  · intro hpub k hk
    have hh := route_not_health inc r hr
    simp only [routeLayers, hh, hr, hpub] at hrl
    obtain ⟨ho, _⟩ := proxy_forwarded _ _ _ _ hrl
    subst ho
    simp only [onProxyReq, Incoming.toRequest]
    exact getHeader_setHeader_other _ _ _ _ hk

/-- C3 amended, at a request to `/graphql` that claims to be user `1` and whose
token verifies as user `42`. -/
theorem C3_gateway_asserted_on_protected_routes_witness :
    ∃ key token user, some "KEY" = some key ∧
      extractToken
          (getHeader [("authorization", "Bearer good"), ("x-user-id", "1")]
            "authorization") =
        some token ∧
      sampleVerify token key ["RS256"] = .ok user ∧
      some "42" = some user.sub ∧ some "alice" = some user.name ∧
      some "a@x.com" = some user.email :=
  ((C3_gateway_asserted_on_protected_routes defaultHost sampleVerify (some "KEY") false
    false ⟨"POST", "/graphql", [("authorization", "Bearer good"), ("x-user-id", "1")]⟩
    ⟨"/graphql", true, .TASK_SERVICE⟩
    ⟨.TASK_SERVICE, "POST", "/graphql",
      [("x-user-email", "a@x.com"), ("x-user-name", "alice"), ("x-user-id", "42"),
        ("host", "localhost:4000"), ("authorization", "Bearer good")]⟩
    (by decide) (by decide)).1 rfl).1

end Gateway

namespace Gateway

/-! ## Unmatched and public paths -/

/-- C10, as stated, fails in its last part: no rule matches the paths `/nowhere`
and `/health`, and the requests `OPTIONS /nowhere` and `GET /health` are
answered 204 and 200, not 404. -/
theorem C10_counterexample :
    route "/nowhere" = none ∧ route "/health" = none ∧
    gateway defaultHost sampleVerify (some "KEY") false false
        (.request ⟨"OPTIONS", "/nowhere", []⟩) = .answered 204 "" ∧
    gateway defaultHost sampleVerify (some "KEY") false false
        (.request ⟨"GET", "/health", []⟩) = .answered 200 "healthy" := by
  decide

/-- C10, amended: for every request path at most one of the five rules matches
it; the rule found first in registration order is then the rule longest-match
precedence picks, and it is every rule that matches. An ordinary request whose
path no rule matches is forwarded to no upstream; the gateway answers it
itself: 204 from `cors` when it is `OPTIONS`, else 429 from the rate limiter
when the limit is used up, else 200 when it is the health probe, else 404. -/
theorem C10_one_rule_governs (hostOf : Upstream → String) (jwtVerify : JwtVerify)
    (PUBLIC_KEY : Option String) (limited listening : Bool) (inc : Incoming) :
    (routes.filter (fun r => mountMatches r.mount inc.path)).length ≤ 1 ∧
    route inc.path = longestMatch inc.path ∧
    (∀ r ∈ routes, mountMatches r.mount inc.path = true → route inc.path = some r) ∧
    (route inc.path = none →
      (∀ out,
        gateway hostOf jwtVerify PUBLIC_KEY limited listening (.request inc) ≠
          .forwarded out) ∧
      gateway hostOf jwtVerify PUBLIC_KEY limited listening (.request inc) =
        if inc.method = "OPTIONS" then .answered 204 ""
        else if limited then .answered 429 "Too many requests, please try again later."
        else if isHealth inc then .answered 200 "healthy"
        else .answered 404 "Not Found") := by
  have hle := matching_rules_le_one inc.path
  have hfind : route inc.path =
      (routes.filter (fun r => mountMatches r.mount inc.path)).head? :=
    find?_eq_head?_filter _ _
  refine ⟨hle, ?_, ?_, ?_⟩
  · rw [hfind]
    unfold longestMatch
    generalize routes.filter (fun r => mountMatches r.mount inc.path) = l at hle
    match l, hle with
    | [], _ => rfl
    | [a], _ => rfl
    | _ :: _ :: _, h => simp at h
  · intro r hr hm
    exact route_of_match inc.path r hr hm
  · intro hnone
    have hg : gateway hostOf jwtVerify PUBLIC_KEY limited listening (.request inc) =
        if inc.method = "OPTIONS" then .answered 204 ""
        else if limited then .answered 429 "Too many requests, please try again later."
        else if isHealth inc then .answered 200 "healthy"
        else .answered 404 "Not Found" := by
      simp [gateway, routeLayers, hnone]
    refine ⟨?_, hg⟩
    intro out
    rw [hg]
    split
    · simp
    · split
      · simp
      · split <;> simp

/-- C10 amended, at the path `/api/users/profile`, which no rule matches. -/
theorem C10_one_rule_governs_witness :
    gateway defaultHost sampleVerify (some "KEY") false false
        (.request ⟨"GET", "/api/users/profile", []⟩) =
      .answered 404 "Not Found" :=
  ((C10_one_rule_governs defaultHost sampleVerify (some "KEY") false false
    ⟨"GET", "/api/users/profile", []⟩).2.2.2 (by decide)).2

/-- C11, as stated, fails: an `OPTIONS` request under
`/api/users/auth/public-key` is answered 204 by `cors`, and a request over the
rate limit is answered 429; neither is forwarded to the user service. -/
theorem C11_counterexample :
    gateway defaultHost sampleVerify none false false
        (.request ⟨"OPTIONS", "/api/users/auth/public-key", []⟩) = .answered 204 "" ∧
    gateway defaultHost sampleVerify none true false
        (.request ⟨"GET", "/api/users/auth/public-key", []⟩) =
      .answered 429 "Too many requests, please try again later." := by
  decide

/-- C11, amended: on an ordinary request under `/api/users/auth/public-key`
`verifyToken` is not run, whatever `PUBLIC_KEY` holds and whatever the
Authorization header is: what the gateway does does not depend on the key or
on the verifier, and it is never an answer with status 401, 403 or 503. The
request is forwarded to the user service, every header but `host` as it came,
unless it is `OPTIONS` (204), over the rate limit (429), or has a header value
Node refuses (500). -/
theorem C11_public_key_route_open (hostOf : Upstream → String) (jwtVerify : JwtVerify)
    (PUBLIC_KEY : Option String) (limited listening : Bool) (inc : Incoming)
    (h : mountMatches "/api/users/auth/public-key" inc.path = true) :
    (∀ (jwtVerify2 : JwtVerify) (PUBLIC_KEY2 : Option String),
      gateway hostOf jwtVerify2 PUBLIC_KEY2 limited listening (.request inc) =
        gateway hostOf jwtVerify PUBLIC_KEY limited listening (.request inc)) ∧
    (∀ status body,
      gateway hostOf jwtVerify PUBLIC_KEY limited listening (.request inc) =
        .answered status body →
      status = 204 ∨ status = 429 ∨ status = 500) ∧
    (inc.method ≠ "OPTIONS" → limited = false →
      validHeaderValue (hostOf .USER_SERVICE) = true →
      (∀ p ∈ inc.headers, validHeaderValue p.2 = true) →
      gateway hostOf jwtVerify PUBLIC_KEY limited listening (.request inc) =
        .forwarded
          ⟨.USER_SERVICE, inc.method, inc.path,
            setHeader inc.headers "host" (hostOf .USER_SERVICE)⟩) := by
  have hr : route inc.path = some ⟨"/api/users/auth/public-key", false, .USER_SERVICE⟩ :=
    route_of_match inc.path ⟨"/api/users/auth/public-key", false, .USER_SERVICE⟩
      (by decide) h
  have hh := route_not_health inc _ hr
  have hrl : ∀ (jv : JwtVerify) (key : Option String),
      routeLayers hostOf jv key inc =
        proxy (hostOf .USER_SERVICE) .USER_SERVICE inc.toRequest := by
    intro jv key
    simp [routeLayers, hh, hr]
  refine ⟨?_, ?_, ?_⟩
  · intro jv2 key2
    simp only [gateway, hrl]
  · intro status body hans
    simp only [gateway, hrl] at hans
    split at hans
    · left
      exact ((Result.answered.inj hans).1).symm
    · split at hans
      · right; left
        exact ((Result.answered.inj hans).1).symm
      · right; right
        unfold proxy at hans
        simp only at hans
        split at hans
        · exact absurd hans (by simp)
        · exact ((Result.answered.inj hans).1).symm
  · intro hm hl hhost hin
    subst hl
    rw [gateway_request_passed _ _ _ _ _ hm, hrl]
    have := proxy_of_valid (hostOf .USER_SERVICE) .USER_SERVICE inc.toRequest
      (by
        simp only [onProxyReq, Incoming.toRequest]
        exact valid_setHeader _ _ _ hin hhost)
    simpa [onProxyReq, Incoming.toRequest] using this

/-- C11 amended, at a request for the key while the gateway has none, with a
forged token. -/
theorem C11_public_key_route_open_witness :
    gateway defaultHost sampleVerify none false false
        (.request
          ⟨"GET", "/api/users/auth/public-key", [("authorization", "Bearer forged")]⟩) =
      .forwarded
        ⟨.USER_SERVICE, "GET", "/api/users/auth/public-key",
          setHeader [("authorization", "Bearer forged")] "host" "localhost:3001"⟩ :=
  (C11_public_key_route_open defaultHost sampleVerify none false false
    ⟨"GET", "/api/users/auth/public-key", [("authorization", "Bearer forged")]⟩
    (by decide)).2.2 (by decide) rfl (by decide) (by decide)

end Gateway

namespace Gateway

/-- C12, as stated, fails: the path `/api/users/profile` is under `/api/users`
and under none of the three public mount paths, and a request for it without
an Authorization header, with a key present, is answered 404, not 401. -/
theorem C12_counterexample :
    mountMatches "/api/users" "/api/users/profile" = true ∧
    mountMatches "/api/users/register" "/api/users/profile" = false ∧
    mountMatches "/api/users/login" "/api/users/profile" = false ∧
    mountMatches "/api/users/auth/public-key" "/api/users/profile" = false ∧
    gateway defaultHost sampleVerify (some "KEY") false false
        (.request ⟨"GET", "/api/users/profile", []⟩) =
      .answered 404 "Not Found" := by
  decide

/-- C12, amended: under `/api/users` the one protected mount path is
`/api/users/me`. With a key present, an ordinary request under it is forwarded
only after a token of it has verified, and, when it is not `OPTIONS` and the
rate limit is not used up, it is answered 401 if it has no Authorization
header. An ordinary request under `/api/users` that none of the four mount
paths matches, not `OPTIONS` and within the rate limit, is answered 404, and
no token is asked of it. -/
theorem C12_only_me_is_protected (hostOf : Upstream → String) (jwtVerify : JwtVerify)
    (key : String) (limited listening : Bool) (inc : Incoming) (hkey : key ≠ "")
    (husers : mountMatches "/api/users" inc.path = true) :
    (mountMatches "/api/users/me" inc.path = true →
      (inc.method ≠ "OPTIONS" → limited = false →
        getHeader inc.headers "authorization" = none →
        gateway hostOf jwtVerify (some key) limited listening (.request inc) =
          .answered 401 "Unauthorized: No token provided") ∧
      (∀ out,
        gateway hostOf jwtVerify (some key) limited listening (.request inc) =
          .forwarded out →
        ∃ token user,
          extractToken (getHeader inc.headers "authorization") = some token ∧
          jwtVerify token key ["RS256"] = .ok user)) ∧
    (route inc.path = none → inc.method ≠ "OPTIONS" → limited = false →
      gateway hostOf jwtVerify (some key) limited listening (.request inc) =
        .answered 404 "Not Found") := by
  have hh := users_not_health inc husers
  constructor
  · intro hme
    have hr : route inc.path = some ⟨"/api/users/me", true, .USER_SERVICE⟩ :=
      route_of_match inc.path ⟨"/api/users/me", true, .USER_SERVICE⟩ (by decide) hme
    constructor
    · intro hm hl hnone
      subst hl
      rw [gateway_request_passed _ _ _ _ _ hm]
      simp [routeLayers, hh, hr, verifyToken, hkey, Incoming.toRequest, hnone,
        extractToken]
    · intro out hfw
      obtain ⟨_, _, hrl⟩ := gateway_request_forwarded _ _ _ _ _ _ _ hfw
      obtain ⟨k, token, user, hk, _, htok, hver⟩ :=
        routeLayers_forwarded_auth hostOf jwtVerify (some key) inc _ out hr rfl hrl
      have hk' : key = k := Option.some.inj hk
      subst hk'
      exact ⟨token, user, htok, hver⟩
  · intro hnone hm hl
    subst hl
    rw [gateway_request_passed _ _ _ _ _ hm]
    simp [routeLayers, hh, hnone]

/-- C12 amended, at a request for `/api/users/me` without an Authorization
header. -/
theorem C12_only_me_is_protected_witness :
    gateway defaultHost sampleVerify (some "KEY") false false
        (.request ⟨"GET", "/api/users/me", []⟩) =
      .answered 401 "Unauthorized: No token provided" :=
  ((C12_only_me_is_protected defaultHost sampleVerify "KEY" false false
    ⟨"GET", "/api/users/me", []⟩ (by decide) (by decide)).1 (by decide)).1
    (by decide) rfl (by decide)

/-! ## Upstream failure -/

/-- C15, as stated, fails: when the connection to the task service fails while
a request to `/graphql` is forwarded, the status of the answer is 500, and no
error handler of the proxy library makes it 502. -/
theorem C15_counterexample :
    ¬ ∃ defaultErrorHandler : String → ProxyReq → Response,
      (proxyResponse defaultErrorHandler
        ⟨.TASK_SERVICE, "POST", "/graphql", [("authorization", "Bearer good")]⟩
        (.failed "ECONNREFUSED")).status = 502 := by
  rintro ⟨defaultErrorHandler, h⟩
  simp [proxyResponse] at h

/-- C15, amended: when the connection to the task service fails while a
request under `/graphql` is forwarded, whatever the error is, the gateway
answers with status 500 and the JSON body
`{ error: 'GraphQL service unavailable' }`. -/
theorem C15_graphql_upstream_failure (defaultErrorHandler : String → ProxyReq → Response)
    (hostOf : Upstream → String) (jwtVerify : JwtVerify) (PUBLIC_KEY : Option String)
    (limited listening : Bool) (inc : Incoming) (out : ProxyReq) (code : String)
    (hm : mountMatches "/graphql" inc.path = true)
    (hfw : gateway hostOf jwtVerify PUBLIC_KEY limited listening (.request inc) =
      .forwarded out) :
    out.target = .TASK_SERVICE ∧
    proxyResponse defaultErrorHandler out (.failed code) =
      ⟨500, .json "GraphQL service unavailable"⟩ := by
  have hr : route inc.path = some ⟨"/graphql", true, .TASK_SERVICE⟩ :=
    route_of_match inc.path ⟨"/graphql", true, .TASK_SERVICE⟩ (by decide) hm
  obtain ⟨_, _, hrl⟩ := gateway_request_forwarded _ _ _ _ _ _ _ hfw
  obtain ⟨key, token, user, hk, hkey, htok, hver⟩ :=
    routeLayers_forwarded_auth hostOf jwtVerify PUBLIC_KEY inc _ out hr rfl hrl
  subst hk
  have ht : out.target = .TASK_SERVICE :=
    (verified_out hostOf jwtVerify key token user inc _ out hkey hr rfl htok hver hrl).1
  refine ⟨ht, ?_⟩
  simp [proxyResponse, ht]

/-- C15 amended, at a verified request to `/graphql` whose upstream refuses the
connection; the handler of the library is taken to answer 504 in plain
text. -/
theorem C15_graphql_upstream_failure_witness :
    proxyResponse (fun _ _ => ⟨504, .other "Error occurred while trying to proxy"⟩)
        ⟨.TASK_SERVICE, "POST", "/graphql",
          [("x-user-email", "a@x.com"), ("x-user-name", "alice"), ("x-user-id", "42"),
            ("host", "localhost:4000"), ("authorization", "Bearer good")]⟩
        (.failed "ECONNREFUSED") =
      ⟨500, .json "GraphQL service unavailable"⟩ :=
  (C15_graphql_upstream_failure
    (fun _ _ => ⟨504, .other "Error occurred while trying to proxy"⟩) defaultHost
    sampleVerify (some "KEY") false false
    ⟨"POST", "/graphql", [("authorization", "Bearer good")]⟩
    ⟨.TASK_SERVICE, "POST", "/graphql",
      [("x-user-email", "a@x.com"), ("x-user-name", "alice"), ("x-user-id", "42"),
        ("host", "localhost:4000"), ("authorization", "Bearer good")]⟩
    "ECONNREFUSED" (by decide) (by decide)).2

end Gateway

namespace Gateway

/-! ## Key bootstrap -/

/-- After `n + 1` key requests have failed one after the other, `PUBLIC_KEY` is
null, no request is pending and one timer of 5000 ms is set. -/
theorem failures_run (message : String) (n : Nat) :
    run (failures message (n + 1)) = ⟨none, 0, [5000]⟩ := by
  have hgen : (failures message (n + 1)).foldl step ⟨none, 1, []⟩ = ⟨none, 0, [5000]⟩ := by
    induction n with
    | zero => simp [failures, step, fetchRejected]
    | succ n ih =>
      have h1 : step ⟨none, 1, []⟩ (.rejected message) = ⟨none, 0, [5000]⟩ := by
        simp [step, fetchRejected]
      have h2 : step ⟨none, 0, [5000]⟩ .timeout = ⟨none, 1, []⟩ := by
        simp [step, fetchPublicKey]
      rw [failures, List.foldl_cons, List.foldl_cons, h1, h2, ih]
  exact hgen

/-- C13, on the code: a key request that succeeds with `response.data` null
(the body `null`) or empty leaves that value in `PUBLIC_KEY` with no request
pending and no timer set, and `verifyToken` goes on answering 503, a valid
token included. -/
theorem C13_falsy_data_is_stored_and_never_retried :
    step (run []) (.resolved none) = ⟨none, 0, []⟩ ∧
    step (run []) (.resolved (some "")) = ⟨some "", 0, []⟩ ∧
    verifyToken sampleVerify (step (run []) (.resolved none)).PUBLIC_KEY
        ⟨"GET", "/api/users/me", [("authorization", "Bearer good")], none⟩ =
      ⟨⟨"GET", "/api/users/me", [("authorization", "Bearer good")], none⟩,
        .respond 503 "Service unavailable. Public key not yet fetched."⟩ ∧
    verifyToken sampleVerify (step (run []) (.resolved (some ""))).PUBLIC_KEY
        ⟨"GET", "/api/users/me", [("authorization", "Bearer good")], none⟩ =
      ⟨⟨"GET", "/api/users/me", [("authorization", "Bearer good")], none⟩,
        .respond 503 "Service unavailable. Public key not yet fetched."⟩ := by
  decide

/-- C14, on the code: after one failed key request, the retry and a success
with `response.data` null, `PUBLIC_KEY` is null, no request is pending and no
timer is set, and no later event changes that. -/
theorem C14_absent_key_with_nothing_pending :
    run [.rejected "connect ECONNREFUSED", .timeout, .resolved none] = ⟨none, 0, []⟩ ∧
    run [.rejected "connect ECONNREFUSED", .timeout, .resolved none, .timeout,
        .request ⟨"GET", "/api/users/me", [], none⟩, .timeout] =
      ⟨none, 0, []⟩ := by
  decide

end Gateway
